import Mathlib

/-
Shallow embedding of the virtual-memory core in src/kern/vm/addrspace.c
(OS/161 ASST3 VM: address spaces, two-level page table, fault handler).

Machine integers (vaddr_t, paddr_t, uint32_t, size_t) are modelled as Nat
with explicit `% 4294967296` (2^32) at every operation where 32-bit
wraparound can occur.  Bit operations of the source are translated to
arithmetic that is provably equal on the operand ranges involved:
  - `v & PAGE_FRAME` (clear the low 12 bits of a 32-bit value) is
    `v % 2^32 - v % 2^32 % 4096`;
  - `p | dirty | TLBLO_VALID` where `p` is page-aligned, `dirty` is bit 10
    and `TLBLO_VALID` is bit 9 (disjoint bit positions) is `p + dirty + 512`;
  - `e & TLBLO_DIRTY` for an entry built that way is `e / 1024 % 2 * 1024`.

Kernel heap (kmalloc/kfree) and the frame provider (alloc_kpages /
free_kpages) are external collaborators; they are modelled by an explicit
kernel state: a pointer-indexed heap of second-level arrays, an allocation
budget that acts as an out-of-memory oracle, a monotone fresh-pointer /
fresh-frame counter, a liveness map for frames, and per-frame page contents.
A whole page's contents are modelled as one Nat value (bzero writes 0,
memmove copies the value); this is faithful because the source only ever
bzero's and memmove's whole pages.

C code that dereferences freed or null memory (the source has reachable
paths that do) is modelled by an `Option` result where `none` means the
call crashes / has undefined behaviour.
-/

/-- PAGE_SIZE from the kernel headers (4 KiB pages). -/
def PAGE_SIZE : Nat := 4096

/-- Modelled from the spec: PT_SIZE is defined in the repository's
addrspace.h, which is not under src/; spec section 3 fixes both page-table
levels at 10-bit indices, i.e. 1024 slots. -/
def PT_SIZE : Nat := 1024

/-- Modelled from the spec: PAGETABLE_SIZE (used by as_destroy) comes from
the same missing header; it is the same 1024-slot first/second level size. -/
def PAGETABLE_SIZE : Nat := 1024

/-- MIPS_KSEG0 = 0x80000000, start of the kernel segment / end of kuseg. -/
def MIPS_KSEG0 : Nat := 2147483648

/-- TLBLO_DIRTY = 0x00000400 (bit 10), from mips/tlb.h. -/
def TLBLO_DIRTY : Nat := 1024

/-- TLBLO_VALID = 0x00000200 (bit 9), from mips/tlb.h. -/
def TLBLO_VALID : Nat := 512

/-- 2^32, the modulus of 32-bit machine arithmetic. -/
def U32 : Nat := 4294967296

/-- KVADDR_TO_PADDR(vaddr) = vaddr - MIPS_KSEG0, as 32-bit unsigned
subtraction (wraps modulo 2^32). -/
def KVADDR_TO_PADDR (v : Nat) : Nat := (v + U32 - MIPS_KSEG0) % U32

/-- PADDR_TO_KVADDR(paddr) = paddr + MIPS_KSEG0, as 32-bit unsigned
addition. -/
def PADDR_TO_KVADDR (p : Nat) : Nat := (p + MIPS_KSEG0) % U32

/-- `v & PAGE_FRAME` on a 32-bit value: clear the low 12 offset bits. -/
def andPageFrame (v : Nat) : Nat := v % U32 - v % U32 % PAGE_SIZE

/-- `e & TLBLO_DIRTY` on a 32-bit value: isolate bit 10. -/
def andDirty (e : Nat) : Nat := e % U32 / 1024 % 2 * 1024

/-- Error codes from kern/errno.h used by this file. -/
inductive Errno where
  | EFAULT
  | EINVAL
  | ENOMEM
deriving DecidableEq

/-- Fault codes passed to vm_fault (VM_FAULT_READ / WRITE / READONLY from
vm.h, plus the default case of the switch for any other value). -/
inductive FaultType where
  | READ
  | WRITE
  | READONLY
  | INVALID
deriving DecidableEq

/-- Point update of a function, modelling an in-place store to an array
slot or a heap cell. -/
def updFn {α : Type} (f : Nat → α) (i : Nat) (v : α) : Nat → α :=
  fun j => if j = i then v else f j

/-- A second-level page-table array: second-level index to 32-bit entry
value (0 is the "no mapping" sentinel, exactly as in the source). -/
def L2 : Type := Nat → Nat

/-- struct region (singly linked in the source; the list is the links). -/
structure Region where
  vaddr : Nat
  memsize : Nat
  readable : Bool
  writeable : Bool
  executable : Bool
  old_writeable : Bool

/-- The external-collaborator state threaded through every operation:
kmalloc heap of second-level arrays (pointer to contents; `none` means
not allocated / freed, so a retained pointer whose cell is `none` is a
dangling pointer), allocation budgets acting as out-of-memory oracles,
fresh counters, frame liveness, page contents per physical page address,
a count of live region records, and the log of TLB inserts (cleared by a
full TLB flush). -/
structure KernelState where
  heapAvail : Nat
  framesAvail : Nat
  nextPtr : Nat
  nextFrame : Nat
  heapLive : Nat → Option L2
  frameLive : Nat → Bool
  mem : Nat → Nat
  regionRecords : Nat
  tlbWrites : List (Nat × Nat)

/-- struct addrspace: region list, first-level page table (index to
kmalloc pointer of the second-level array; 0 = NULL), and the physical
page address of the frame backing the first-level array itself (it is
allocated with alloc_kpages in as_create and released in as_destroy). -/
structure Addrspace where
  region_list : List Region
  pagetable : Nat → Nat
  ptFrame : Nat

/-- alloc_kpages(1): returns the kernel virtual address of a fresh
page-aligned frame, or 0 on failure.  Frames are handed out from a
monotone counter, so the provider never re-issues a live frame and never
issues physical address 0 (the counter starts at least at 1 in any
well-formed state). -/
def alloc_kpages (k : KernelState) : Nat × KernelState :=
  if k.framesAvail = 0 then (0, k)
  else
    let pa := k.nextFrame * PAGE_SIZE
    (PADDR_TO_KVADDR pa,
     { k with framesAvail := k.framesAvail - 1,
              nextFrame := k.nextFrame + 1,
              frameLive := updFn k.frameLive pa true })

/-- free_kpages(kvaddr): release the frame at that kernel virtual
address. -/
def free_kpages (k : KernelState) (kv : Nat) : KernelState :=
  { k with frameLive := updFn k.frameLive (KVADDR_TO_PADDR kv) false }

/-- as_create: kmalloc the addrspace record, null the region list,
allocate one page for the first-level table with alloc_kpages and null
every slot, create the lock.  Returns (state, NULL) on allocation
failure, mirroring the C function returning NULL.  The lock is not
modelled (single-threaded model). -/
def as_create (k : KernelState) : KernelState × Option Addrspace :=
  if k.heapAvail = 0 then (k, none)
  else
    let k1 : KernelState := { k with heapAvail := k.heapAvail - 1 }
    let r := alloc_kpages k1
    if r.1 = 0 then (r.2, none)
    else (r.2, some { region_list := [], pagetable := fun _ => 0,
                      ptFrame := KVADDR_TO_PADDR r.1 })

/-- The page-boundary normalization of as_define_region: the base rounded
down to a page boundary (`vaddr &= PAGE_FRAME`). -/
def normBase (vaddr : Nat) : Nat := vaddr % U32 - vaddr % U32 % PAGE_SIZE

/-- The page-boundary normalization of as_define_region: `memsize +=
vaddr & ~PAGE_FRAME; memsize = (memsize + PAGE_SIZE - 1) & PAGE_FRAME`,
all in 32-bit arithmetic. -/
def normSize (vaddr memsize : Nat) : Nat :=
  let m := (memsize % U32 + vaddr % U32 % PAGE_SIZE) % U32
  (m + PAGE_SIZE - 1) % U32 - (m + PAGE_SIZE - 1) % U32 % PAGE_SIZE

/-- The overlap scan of as_define_region: some existing region has
`vaddr <= curr->vaddr + curr->memsize && vaddr + memsize >= curr->vaddr`
(32-bit sums). -/
def overlapsChk (vaddr memsize : Nat) (rs : List Region) : Bool :=
  rs.any fun r =>
    decide (vaddr ≤ (r.vaddr + r.memsize) % U32) &&
    decide ((vaddr + memsize) % U32 ≥ r.vaddr)

/-- as_define_region: normalize to page boundaries, reject past-KSEG0
ranges with EFAULT, reject overlaps with EINVAL, kmalloc the region
record (ENOMEM on failure), initialize old_writeable = writeable, and
prepend to the region list.  Errors return the state unchanged, exactly
as the C early returns mutate nothing. -/
def as_define_region (k : KernelState) (as : Addrspace) (vaddr memsize : Nat)
    (readable writeable executable : Bool) :
    Except Errno Unit × KernelState × Addrspace :=
  let va := normBase vaddr
  let ms := normSize vaddr memsize
  if (va + ms) % U32 > MIPS_KSEG0 then (.error .EFAULT, k, as)
  else if overlapsChk va ms as.region_list then (.error .EINVAL, k, as)
  else if k.heapAvail = 0 then (.error .ENOMEM, k, as)
  else
    (.ok (),
     { k with heapAvail := k.heapAvail - 1,
              regionRecords := k.regionRecords + 1 },
     { as with region_list :=
         { vaddr := va, memsize := ms, readable := readable,
           writeable := writeable, executable := executable,
           old_writeable := writeable } :: as.region_list })

/-- as_prepare_load: for every region, save the current writability into
old_writeable and force writeable = true.  The C function always returns
0. -/
def as_prepare_load (as : Addrspace) : Addrspace :=
  { as with region_list := as.region_list.map fun r =>
      { r with old_writeable := r.writeable, writeable := true } }

/-- as_complete_load: as_activate() (full TLB flush, modelled by clearing
the TLB-insert log), then restore every region's writeable from
old_writeable.  The C function always returns 0. -/
def as_complete_load (k : KernelState) (as : Addrspace) :
    KernelState × Addrspace :=
  ({ k with tlbWrites := [] },
   { as with region_list := as.region_list.map fun r =>
       { r with writeable := r.old_writeable } })

/-- The frame-freeing inner loop of as_destroy over one second-level
array: for every j with a non-sentinel entry, free_kpages(
PADDR_TO_KVADDR(entry) & PAGE_FRAME). -/
def freeL2Frames (k : KernelState) (l2 : L2) : List Nat → KernelState
  | [] => k
  | j :: rest =>
    let k1 := if l2 j ≠ 0
      then free_kpages k (andPageFrame (PADDR_TO_KVADDR (l2 j)))
      else k
    freeL2Frames k1 l2 rest

/-- The outer loop of as_destroy over the first level: for every present
slot, dereference its second-level array and free every resident frame.
Dereferencing a dangling slot (pointer retained, cell freed) is undefined
behaviour, modelled as `none`. -/
def as_destroy_frames (k : KernelState) (pt : Nat → Nat) :
    List Nat → Option KernelState
  | [] => some k
  | i :: rest =>
    if pt i ≠ 0 then
      match k.heapLive (pt i) with
      | none => none
      | some l2 =>
        as_destroy_frames (freeL2Frames k l2 (List.range PAGETABLE_SIZE))
          pt rest
    else as_destroy_frames k pt rest

/-- as_destroy: free every resident frame recorded in the page table,
then kfree(as->pagetable) (which releases the first-level table's frame;
OS/161 kfree dispatches page-aligned whole-page blocks to free_kpages),
then kfree every region record, then lock_destroy and kfree(as) (not
modelled).  Note: the source never kfrees the second-level arrays
as->pagetable[i]; accordingly heapLive is not touched here. -/
def as_destroy (k : KernelState) (as : Addrspace) : Option KernelState :=
  match as_destroy_frames k as.pagetable (List.range PAGETABLE_SIZE) with
  | none => none
  | some k1 =>
    let k2 : KernelState :=
      { k1 with frameLive := updFn k1.frameLive as.ptFrame false }
    some { k2 with regionRecords := k2.regionRecords - as.region_list.length }

/-- vm_add_l1_entry: kmalloc a second-level array (ENOMEM on failure,
state unchanged), zero every slot, install the pointer at
pagetable[pt1_index].  Fresh kmalloc pointers are nextPtr + 1, so a
returned pointer is never 0 (NULL). -/
def vm_add_l1_entry (k : KernelState) (pt : Nat → Nat) (pt1_index : Nat) :
    Except Errno (KernelState × (Nat → Nat)) :=
  if k.heapAvail = 0 then .error .ENOMEM
  else
    let ptr := k.nextPtr + 1
    .ok ({ k with heapAvail := k.heapAvail - 1,
                  nextPtr := ptr,
                  heapLive := updFn k.heapLive ptr (some fun _ => 0) },
         updFn pt pt1_index ptr)

/-- vm_add_l2_entry: alloc_kpages one frame (ENOMEM on failure, state
unchanged), bzero it, and store (paddr & PAGE_FRAME) | dirty |
TLBLO_VALID at pagetable[pt1][pt2].  The store dereferences
pagetable[pt1]; if that cell is dangling the behaviour is undefined
(`none`). -/
def vm_add_l2_entry (k : KernelState) (pt : Nat → Nat)
    (pt1 pt2 dirty : Nat) : Option (Except Errno KernelState) :=
  let r := alloc_kpages k
  if r.1 = 0 then some (.error .ENOMEM)
  else
    let pa := andPageFrame (KVADDR_TO_PADDR r.1)
    let k1 : KernelState := { r.2 with mem := updFn r.2.mem pa 0 }
    match k1.heapLive (pt pt1) with
    | none => none
    | some l2 =>
      let l2n := updFn l2 pt2 (pa + dirty + TLBLO_VALID)
      some (.ok { k1 with heapLive := updFn k1.heapLive (pt pt1) (some l2n) })

/-- The frame copy for one resident source entry inside vm_copy_pt:
alloc_kpages (ENOMEM on failure, state unchanged), bzero the new page,
memmove one page from PADDR_TO_KVADDR(old & PAGE_FRAME), and build the
new entry (new paddr & PAGE_FRAME) | (old & TLBLO_DIRTY) | TLBLO_VALID. -/
def vm_copy_pt_entry (k : KernelState) (oldE : Nat) :
    Except Errno (KernelState × Nat) :=
  let r := alloc_kpages k
  if r.1 = 0 then .error .ENOMEM
  else
    let pa := KVADDR_TO_PADDR r.1
    let k1 : KernelState := { r.2 with mem := updFn r.2.mem pa 0 }
    let srcKv := PADDR_TO_KVADDR (andPageFrame oldE)
    let k2 : KernelState :=
      { k1 with mem := updFn k1.mem pa (k1.mem (KVADDR_TO_PADDR srcKv)) }
    .ok (k2, andPageFrame pa + andDirty oldE + TLBLO_VALID)

/-- The inner j loop of vm_copy_pt over one second-level array: copy
resident entries through vm_copy_pt_entry, write the sentinel 0 for
empty ones.  Returns (error?, state reached, array built so far); on
ENOMEM the loop stops with the partially built array, exactly like the
C early return. -/
def vm_copy_l2 (k : KernelState) (oldL2 newL2 : L2) :
    List Nat → Option Errno × KernelState × L2
  | [] => (none, k, newL2)
  | j :: rest =>
    if oldL2 j ≠ 0 then
      match vm_copy_pt_entry k (oldL2 j) with
      | .error e => (some e, k, newL2)
      | .ok (k1, v) => vm_copy_l2 k1 oldL2 (updFn newL2 j v) rest
    else vm_copy_l2 k oldL2 (updFn newL2 j 0) rest

/-- The outer i loop of vm_copy_pt: skip absent source slots; for a
present slot, `new_pt[i] = kmalloc(...)` is NOT checked for NULL in the
source, so heap exhaustion here is a null dereference (`none`);
otherwise fill the fresh array with vm_copy_l2 and either stop with the
error or continue.  Dereferencing a dangling source slot is also
`none`.  Freshly kmalloc'd cells are modelled as zero-filled; in the
source they are uninitialised until the j loop writes them, observable
only in the tail of a partially filled array after the ENOMEM early
return (it reads as 0 here, garbage in C). -/
def vm_copy_pt_go (k : KernelState) (old_pt new_pt : Nat → Nat) :
    List Nat → Option (Option Errno × KernelState × (Nat → Nat))
  | [] => some (none, k, new_pt)
  | i :: rest =>
    if old_pt i = 0 then vm_copy_pt_go k old_pt new_pt rest
    else if k.heapAvail = 0 then none
    else
      let ptr := k.nextPtr + 1
      let k1 : KernelState :=
        { k with heapAvail := k.heapAvail - 1,
                 nextPtr := ptr,
                 heapLive := updFn k.heapLive ptr (some fun _ => 0) }
      let np := updFn new_pt i ptr
      match k1.heapLive (old_pt i) with
      | none => none
      | some oldL2 =>
        match vm_copy_l2 k1 oldL2 (fun _ => 0) (List.range PT_SIZE) with
        | (err, k2, newL2) =>
          let k3 : KernelState :=
            { k2 with heapLive := updFn k2.heapLive ptr (some newL2) }
          match err with
          | some e => some (some e, k3, np)
          | none => vm_copy_pt_go k3 old_pt np rest

/-- vm_copy_pt(old_pt, new_pt): eager clone of the whole two-level page
table, returning 0 or ENOMEM (or crashing, see vm_copy_pt_go). -/
def vm_copy_pt (k : KernelState) (old_pt new_pt : Nat → Nat) :
    Option (Option Errno × KernelState × (Nat → Nat)) :=
  vm_copy_pt_go k old_pt new_pt (List.range PT_SIZE)

/-- The region-copy loop of as_copy: as_define_region for each source
region in list order (as_define_region errors leave the state
unchanged, so the loop reports the error with the state as it was). -/
def as_copy_regions (k : KernelState) (newas : Addrspace) :
    List Region → Option Errno × KernelState × Addrspace
  | [] => (none, k, newas)
  | r :: rest =>
    match as_define_region k newas r.vaddr r.memsize r.readable
        r.writeable r.executable with
    | (.error e, k1, as1) => (some e, k1, as1)
    | (.ok (), k1, as1) => as_copy_regions k1 as1 rest

/-- as_copy: as_create (NULL gives ENOMEM), copy every region
(destroying the new address space and surfacing the error on failure),
then vm_copy_pt under the source's lock — whose return value the source
DISCARDS (the `vm_copy_pt(...);;` line), after which *ret = newas and 0
is returned unconditionally. -/
def as_copy (k : KernelState) (old : Addrspace) :
    Option (Except Errno Addrspace × KernelState) :=
  match as_create k with
  | (k1, none) => some (.error .ENOMEM, k1)
  | (k1, some newas) =>
    match as_copy_regions k1 newas old.region_list with
    | (some e, k2, as2) =>
      match as_destroy k2 as2 with
      | none => none
      | some k3 => some (.error e, k3)
    | (none, k2, as2) =>
      match vm_copy_pt k2 old.pagetable as2.pagetable with
      | none => none
      | some (_check, k3, np) =>
        some (.ok { as2 with pagetable := np }, k3)

/-- The first-level index computed by vm_fault:
KVADDR_TO_PADDR(faultaddress) >> 22. -/
def vmPt1Index (fa : Nat) : Nat := KVADDR_TO_PADDR (fa % U32) / 4194304

/-- The second-level index computed by vm_fault:
(KVADDR_TO_PADDR(faultaddress) << 10) >> 22, in 32-bit arithmetic. -/
def vmPt2Index (fa : Nat) : Nat :=
  KVADDR_TO_PADDR (fa % U32) * 1024 % U32 / 4194304

/-- The region scan of vm_fault: first region with
faultaddress >= vaddr && faultaddress < vaddr + memsize (32-bit sum). -/
def findRegion (rs : List Region) (fa : Nat) : Option Region :=
  rs.find? fun r =>
    decide (fa ≥ r.vaddr) && decide (fa < (r.vaddr + r.memsize) % U32)

/-- The part of vm_fault that runs after the first level is known to be
present (the code from `uint32_t dirty = 0;` at line 447 down to the
return): dereference the first-level slot (undefined behaviour, `none`,
if it dangles), and if the entry is the unmapped sentinel scan the
regions — no containing region or a failed frame allocation kfrees a
first level allocated by this call (alloc_pt1) WITHOUT clearing the
slot, exactly as the source, then errors out; otherwise install the new
entry.  Finally the TLB is loaded with (faultaddress & PAGE_FRAME,
entry) and 0 is returned. -/
def vm_fault_body (k : KernelState) (as : Addrspace) (alloc_pt1 : Bool)
    (fa : Nat) : Option (Except Errno Unit × KernelState × Addrspace) :=
  let fam := fa % U32
  let pt1_bits := vmPt1Index fa
  let pt2_bits := vmPt2Index fa
  let ptr := as.pagetable pt1_bits
  match k.heapLive ptr with
  | none => none
  | some l2 =>
    if l2 pt2_bits = 0 then
      match findRegion as.region_list fam with
      | none =>
        let k2 := if alloc_pt1
          then { k with heapLive := updFn k.heapLive ptr none }
          else k
        some (.error .EFAULT, k2, as)
      | some reg =>
        let dirty := if reg.writeable then TLBLO_DIRTY else 0
        match vm_add_l2_entry k as.pagetable pt1_bits pt2_bits dirty with
        | none => none
        | some (.error e) =>
          let k2 := if alloc_pt1
            then { k with heapLive := updFn k.heapLive ptr none }
            else k
          some (.error e, k2, as)
        | some (.ok k2) =>
          match k2.heapLive ptr with
          | none => none
          | some l2f =>
            let entryHi := andPageFrame fam
            let entryLo := l2f pt2_bits
            some (.ok (),
              { k2 with tlbWrites := (entryHi, entryLo) :: k2.tlbWrites },
              as)
    else
      let entryHi := andPageFrame fam
      let entryLo := l2 pt2_bits
      some (.ok (),
        { k with tlbWrites := (entryHi, entryLo) :: k.tlbWrites },
        as)

/-- vm_fault(faulttype, faultaddress).  `hasProc` models curproc != NULL
and `hasAS` models proc_getas() != NULL.  READONLY faults and a missing
process/address space return EFAULT; unrecognized fault codes return
EINVAL.  Otherwise: split the address, grow the first level on demand
(remembering in alloc_pt1 whether this call allocated it), and continue
with vm_fault_body. -/
def vm_fault (k : KernelState) (hasProc hasAS : Bool) (as : Addrspace)
    (faulttype : FaultType) (faultaddress : Nat) :
    Option (Except Errno Unit × KernelState × Addrspace) :=
  if hasProc = false then some (.error .EFAULT, k, as)
  else match faulttype with
  | .READONLY => some (.error .EFAULT, k, as)
  | .INVALID => some (.error .EINVAL, k, as)
  | _ =>
    if hasAS = false then some (.error .EFAULT, k, as)
    else
      let pt1_bits := vmPt1Index faultaddress
      if as.pagetable pt1_bits = 0 then
        match vm_add_l1_entry k as.pagetable pt1_bits with
        | .error e => some (.error e, k, as)
        | .ok (k1, pt1) =>
          vm_fault_body k1 { as with pagetable := pt1 } true faultaddress
      else vm_fault_body k as false faultaddress

set_option maxRecDepth 100000

/-
Basic facts about the model's primitive pieces, shared by several claim
proofs below.
-/

theorem updFn_self {α : Type} (f : Nat → α) (i : Nat) (v : α) :
    updFn f i v i = v := by
  simp [updFn]

theorem updFn_ne {α : Type} (f : Nat → α) (i : Nat) (v : α) (j : Nat)
    (h : j ≠ i) : updFn f i v j = f j := by
  simp [updFn, h]

theorem andDirty_cases (e : Nat) : andDirty e = 0 ∨ andDirty e = 1024 := by
  unfold andDirty
  rcases Nat.mod_two_eq_zero_or_one (e % U32 / 1024) with h | h <;>
    rw [h] <;> simp

theorem entry_decompose (pa d : Nat) (hpa : pa % PAGE_SIZE = 0)
    (hlt : pa < U32) (hd : d = 0 ∨ d = 1024) :
    andPageFrame (pa + d + TLBLO_VALID) = pa
      ∧ andDirty (pa + d + TLBLO_VALID) = d
      ∧ pa + d + TLBLO_VALID ≠ 0 := by
  unfold andPageFrame andDirty TLBLO_VALID PAGE_SIZE U32 at *
  rcases hd with h | h <;> subst h <;> refine ⟨by omega, by omega, by omega⟩

/-
Shared concrete inputs used by witnesses and counterexamples.
-/

/-- A kernel state with ample allocation budget and empty heap/memory. -/
def kBase : KernelState :=
  { heapAvail := 100, framesAvail := 100, nextPtr := 0, nextFrame := 1,
    heapLive := fun _ => none, frameLive := fun _ => false, mem := fun _ => 0,
    regionRecords := 0, tlbWrites := [] }

/-- A read-only region covering virtual page [0x1000, 0x2000). -/
def regRO : Region :=
  { vaddr := 4096, memsize := 4096, readable := true, writeable := false,
    executable := false, old_writeable := false }

/-- An address space holding only regRO, with an empty page table. -/
def asRO : Addrspace :=
  { region_list := [regRO], pagetable := fun _ => 0, ptFrame := 0 }

/-
C9.  prepare_load saves each region's writability and forces writable;
complete_load restores the saved value: the composition is the identity
on every region's writable permission.
-/

/-- Claim C9 (confirmed): as_prepare_load snapshots each region's current
writability into old_writeable and forces writeable = true for every
region, and as_complete_load restores each region's writeable to exactly
the saved value, so prepare followed by complete is the identity on the
writable permission of every region. -/
theorem claim_C9 (k : KernelState) (as : Addrspace) :
    (as_prepare_load as).region_list.map Region.old_writeable
        = as.region_list.map Region.writeable
      ∧ (∀ r ∈ (as_prepare_load as).region_list, r.writeable = true)
      ∧ (as_complete_load k (as_prepare_load as)).2.region_list.map
            Region.writeable
          = as.region_list.map Region.writeable := by
  refine ⟨?_, ?_, ?_⟩
  · simp [as_prepare_load, List.map_map]
  · intro r hr
    simp only [as_prepare_load, List.mem_map] at hr
    obtain ⟨r0, _, rfl⟩ := hr
    rfl
  · simp [as_prepare_load, as_complete_load, List.map_map]

/-
C6.  The index split of vm_fault.  The source first applies
KVADDR_TO_PADDR to the *faulting* address (subtracting 0x80000000 in
32-bit arithmetic) and only then extracts the two 10-bit indices, so the
first-level index is NOT the high 10 bits of the faulting address: it is
the high 10 bits with the most significant bit inverted.  The
second-level index and the discarded low 12 bits are as claimed.
-/

/-- Counterexample for C6: at faulting address 0, the high 10 bits are 0,
but vm_fault indexes the first level with
KVADDR_TO_PADDR(0) >> 22 = 0x80000000 >> 22 = 512. -/
theorem claim_C6_cex : vmPt1Index 0 = 512 ∧ (0 : Nat) / 4194304 = 0
    ∧ vmPt1Index 0 ≠ 0 / 4194304 := by
  refine ⟨by decide, by decide, by decide⟩

/-- Claim C6 (corrected): for every 32-bit faulting address, vm_fault's
first-level index is the high 10 bits of (faultaddress - 0x80000000
mod 2^32), i.e. the high 10 bits of the faulting address with the top
bit inverted, and its second-level index is the next 10 bits (bits
21..12) of the faulting address; the low 12 offset bits are discarded. -/
theorem claim_C6 (fa : Nat) (h : fa < U32) :
    vmPt1Index fa = (fa / 4194304 + 512) % 1024
      ∧ vmPt2Index fa = fa / PAGE_SIZE % 1024 := by
  unfold vmPt1Index vmPt2Index KVADDR_TO_PADDR U32 MIPS_KSEG0 PAGE_SIZE at *
  constructor <;> omega

/-- Witness for claim_C6 at the concrete address 0x12345678. -/
theorem claim_C6_witness : 305419896 < U32
    ∧ (vmPt1Index 305419896 = (305419896 / 4194304 + 512) % 1024
        ∧ vmPt2Index 305419896 = 305419896 / PAGE_SIZE % 1024) :=
  ⟨by decide, claim_C6 305419896 (by decide)⟩

/-
C8.  Overlapping region declarations.  The source checks the kuseg bound
FIRST (returning EFAULT) and only then scans for overlaps (returning
EINVAL), so a declaration that both overlaps an existing region and
extends past MIPS_KSEG0 returns EFAULT, not EINVAL.  For declarations
inside kuseg the claim holds, including the touching-boundary policy.
-/

/-- An existing region occupying the top two pages of kuseg,
[0x7fffe000, 0x80000000). -/
def regTop : Region :=
  { vaddr := 2147475456, memsize := 8192, readable := true,
    writeable := true, executable := false, old_writeable := true }

/-- An address space holding only regTop. -/
def asTop : Addrspace :=
  { region_list := [regTop], pagetable := fun _ => 0, ptFrame := 0 }

/-- Counterexample for C8: declaring [0x7ffff000, 0x80001000) in asTop
overlaps regTop under the source's own overlap test, yet as_define_region
returns EFAULT (the kuseg-bound check fires first), not InvalidArgument. -/
theorem claim_C8_cex :
    overlapsChk (normBase 2147479552) (normSize 2147479552 8192)
        asTop.region_list = true
      ∧ as_define_region kBase asTop 2147479552 8192 true true false
          = (.error .EFAULT, kBase, asTop)
      ∧ Errno.EFAULT ≠ Errno.EINVAL := by
  refine ⟨by decide, by rfl, by decide⟩

/-- Claim C8 (corrected): for every declaration whose page-normalized
range stays within kuseg (does not extend past MIPS_KSEG0) and touches
or overlaps any existing region under the test new.base <= other.end and
new.end >= other.base, as_define_region returns InvalidArgument and
leaves the kernel state and the address space (in particular its region
list) unchanged.  Declarations that also extend past MIPS_KSEG0 return
EFAULT instead (see claim_C8_cex). -/
theorem claim_C8 (k : KernelState) (as : Addrspace) (vaddr memsize : Nat)
    (r w x : Bool)
    (h1 : (normBase vaddr + normSize vaddr memsize) % U32 ≤ MIPS_KSEG0)
    (h2 : overlapsChk (normBase vaddr) (normSize vaddr memsize)
        as.region_list = true) :
    as_define_region k as vaddr memsize r w x = (.error .EINVAL, k, as) := by
  unfold as_define_region
  rw [if_neg (by omega), if_pos h2]

/-- Witness for claim_C8: declaring [0x2000, 0x3000) against asRO's
region [0x1000, 0x2000) touches it at the shared boundary and is
rejected with EINVAL, leaving the state unchanged. -/
theorem claim_C8_witness :
    ((normBase 8192 + normSize 8192 4096) % U32 ≤ MIPS_KSEG0
        ∧ overlapsChk (normBase 8192) (normSize 8192 4096)
            asRO.region_list = true)
      ∧ as_define_region kBase asRO 8192 4096 true true false
          = (.error .EINVAL, kBase, asRO) :=
  ⟨⟨by decide, by decide⟩, claim_C8 kBase asRO 8192 4096 true true false
    (by decide) (by decide)⟩

/-
General characterizations of vm_fault's paths, shared by the claims
about the fault handler.
-/

theorem vm_fault_dispatch_present (k : KernelState) (as : Addrspace)
    (ft : FaultType) (fa : Nat)
    (hft : ft = .READ ∨ ft = .WRITE)
    (hslot : as.pagetable (vmPt1Index fa) ≠ 0) :
    vm_fault k true true as ft fa = vm_fault_body k as false fa := by
  rcases hft with h | h <;> subst h <;> simp [vm_fault, hslot]

theorem vm_fault_dispatch_absent (k : KernelState) (as : Addrspace)
    (ft : FaultType) (fa : Nat)
    (hft : ft = .READ ∨ ft = .WRITE)
    (hslot : as.pagetable (vmPt1Index fa) = 0)
    (hheap : k.heapAvail ≠ 0) :
    vm_fault k true true as ft fa
      = vm_fault_body
          { k with heapAvail := k.heapAvail - 1,
                   nextPtr := k.nextPtr + 1,
                   heapLive := updFn k.heapLive (k.nextPtr + 1)
                                 (some fun _ => 0) }
          { as with pagetable := updFn as.pagetable (vmPt1Index fa)
                                   (k.nextPtr + 1) }
          true fa := by
  rcases hft with h | h <;> subst h <;>
    simp [vm_fault, vm_add_l1_entry, hslot, hheap]

theorem vm_fault_body_resident (k : KernelState) (as : Addrspace)
    (b : Bool) (fa ptr : Nat) (l2 : L2)
    (hslot : as.pagetable (vmPt1Index fa) = ptr)
    (hlive : k.heapLive ptr = some l2) (hres : l2 (vmPt2Index fa) ≠ 0) :
    vm_fault_body k as b fa
      = some (.ok (),
          { k with tlbWrites :=
              (andPageFrame (fa % U32), l2 (vmPt2Index fa)) :: k.tlbWrites },
          as) := by
  simp [vm_fault_body, hslot, hlive, hres, andPageFrame]

theorem vm_fault_body_install (k : KernelState) (as : Addrspace)
    (b : Bool) (fa ptr : Nat) (l2 : L2) (reg : Region)
    (hslot : as.pagetable (vmPt1Index fa) = ptr)
    (hlive : k.heapLive ptr = some l2) (hempty : l2 (vmPt2Index fa) = 0)
    (hfind : findRegion as.region_list (fa % U32) = some reg)
    (hframe : k.framesAvail ≠ 0)
    (hbound : k.nextFrame * PAGE_SIZE < MIPS_KSEG0) :
    vm_fault_body k as b fa
      = some (.ok (),
          { k with
              framesAvail := k.framesAvail - 1,
              nextFrame := k.nextFrame + 1,
              frameLive := updFn k.frameLive (k.nextFrame * PAGE_SIZE) true,
              mem := updFn k.mem (k.nextFrame * PAGE_SIZE) 0,
              heapLive := updFn k.heapLive ptr
                (some (updFn l2 (vmPt2Index fa)
                  (k.nextFrame * PAGE_SIZE
                    + (if reg.writeable then TLBLO_DIRTY else 0)
                    + TLBLO_VALID))),
              tlbWrites :=
                (andPageFrame (fa % U32),
                 k.nextFrame * PAGE_SIZE
                   + (if reg.writeable then TLBLO_DIRTY else 0)
                   + TLBLO_VALID) :: k.tlbWrites },
          as) := by
  have hkv : PADDR_TO_KVADDR (k.nextFrame * PAGE_SIZE) ≠ 0 := by
    unfold PADDR_TO_KVADDR MIPS_KSEG0 U32 at *
    omega
  have hpa : KVADDR_TO_PADDR (PADDR_TO_KVADDR (k.nextFrame * PAGE_SIZE))
      = k.nextFrame * PAGE_SIZE := by
    unfold PADDR_TO_KVADDR KVADDR_TO_PADDR MIPS_KSEG0 U32 at *
    omega
  have hapf : andPageFrame (k.nextFrame * PAGE_SIZE)
      = k.nextFrame * PAGE_SIZE := by
    unfold andPageFrame PAGE_SIZE U32 MIPS_KSEG0 at *
    omega
  simp [vm_fault_body, vm_add_l2_entry, alloc_kpages, hslot, hlive, hempty,
    hfind, hframe, hkv, hpa, hapf, updFn_self]

theorem vm_fault_body_nofind (k : KernelState) (as : Addrspace)
    (fa ptr : Nat) (l2 : L2)
    (hslot : as.pagetable (vmPt1Index fa) = ptr)
    (hlive : k.heapLive ptr = some l2) (hempty : l2 (vmPt2Index fa) = 0)
    (hfind : findRegion as.region_list (fa % U32) = none) :
    vm_fault_body k as true fa
      = some (.error .EFAULT,
          { k with heapLive := updFn k.heapLive ptr none }, as) := by
  simp [vm_fault_body, hslot, hlive, hempty, hfind]

theorem vm_fault_readonly (k : KernelState) (hAS : Bool) (as : Addrspace)
    (fa : Nat) :
    vm_fault k true hAS as .READONLY fa = some (.error .EFAULT, k, as) := by
  simp [vm_fault]

/-
C10.  Resident pages are served from the page table alone: no region
lookup, no permission check, regardless of READ/WRITE.
-/

/-- Claim C10 (confirmed): for every READ or WRITE fault whose page-table
entry is already non-sentinel, vm_fault returns success and loads the
TLB with the stored entry, changing nothing else; and the result is the
same for every region list whatsoever — the Region Table is not
consulted and no permission check is performed. -/
theorem claim_C10 (k : KernelState) (as : Addrspace) (ft : FaultType)
    (fa ptr : Nat) (l2 : L2)
    (hft : ft = .READ ∨ ft = .WRITE)
    (hslot : as.pagetable (vmPt1Index fa) = ptr) (hptr : ptr ≠ 0)
    (hlive : k.heapLive ptr = some l2) (hres : l2 (vmPt2Index fa) ≠ 0) :
    vm_fault k true true as ft fa
      = some (.ok (),
          { k with tlbWrites :=
              (andPageFrame (fa % U32), l2 (vmPt2Index fa)) :: k.tlbWrites },
          as)
      ∧ ∀ rl : List Region,
          vm_fault k true true { as with region_list := rl } ft fa
            = some (.ok (),
                { k with tlbWrites :=
                    (andPageFrame (fa % U32), l2 (vmPt2Index fa))
                      :: k.tlbWrites },
                { as with region_list := rl }) := by
  have main : ∀ rl : List Region,
      vm_fault k true true { as with region_list := rl } ft fa
        = some (.ok (),
            { k with tlbWrites :=
                (andPageFrame (fa % U32), l2 (vmPt2Index fa))
                  :: k.tlbWrites },
            { as with region_list := rl }) := by
    intro rl
    rw [vm_fault_dispatch_present k _ ft fa hft (by simpa [hslot] using hptr)]
    exact vm_fault_body_resident _ _ _ fa ptr l2 hslot hlive hres
  exact ⟨main as.region_list, main⟩

/-- A second-level array with one resident read-only entry at index 1
(page 0x1000: frame paddr 0x1000, VALID set, DIRTY clear). -/
def l2R : L2 := updFn (fun _ => 0) 1 4608

/-- A kernel state whose heap holds l2R at pointer 1. -/
def kR : KernelState :=
  { heapAvail := 100, framesAvail := 100, nextPtr := 1, nextFrame := 2,
    heapLive := updFn (fun _ => none) 1 (some l2R),
    frameLive := updFn (fun _ => false) 4096 true,
    mem := fun _ => 0, regionRecords := 0, tlbWrites := [] }

/-- An address space with NO regions at all whose page table maps page
0x1000 through first-level slot 512 and pointer 1. -/
def asR : Addrspace :=
  { region_list := [], pagetable := updFn (fun _ => 0) 512 1, ptFrame := 0 }

/-- Witness for claim_C10: a WRITE fault on the resident page 0x1000 of
asR succeeds and loads the TLB with the stored (read-only!) entry even
though the address space declares no region at all. -/
theorem claim_C10_witness :
    (asR.pagetable (vmPt1Index 4096) = 1 ∧ (1 : Nat) ≠ 0
        ∧ kR.heapLive 1 = some l2R ∧ l2R (vmPt2Index 4096) ≠ 0)
      ∧ vm_fault kR true true asR .WRITE 4096
          = some (.ok (),
              { kR with tlbWrites :=
                  (andPageFrame (4096 % U32), l2R (vmPt2Index 4096))
                    :: kR.tlbWrites },
              asR) :=
  ⟨⟨rfl, by decide, rfl, by decide⟩,
   (claim_C10 kR asR .WRITE 4096 1 l2R (Or.inr rfl) rfl (by decide) rfl
     (by decide)).1⟩

/-
C1.  WRITE faults against a writable=false region.  The source resolves
an unmapped WRITE fault by installing a read-only mapping and returning
0 (success); it never returns a protection error for a WRITE fault.
The READONLY fault type (the hardware's protection fault when the write
then retries against the read-only TLB entry) returns EFAULT — the very
same code as a plain translation fault — without touching anything.
-/

/-- Counterexample for C1: a WRITE fault at the unmapped address 0x1000
inside asRO's writable=false region returns success (not an error), a
frame is allocated, and the page table gains a mapping: the first-level
slot 512 now holds pointer 1 whose array maps index 1 to the read-only
entry 0x1200 (frame 0x1000 | VALID). -/
theorem claim_C1_cex :
    (vm_fault kBase true true asRO .WRITE 4096).map (fun o => o.1)
        = some (.ok ())
      ∧ (vm_fault kBase true true asRO .WRITE 4096).map
            (fun o => o.2.1.nextFrame) = some 2
      ∧ (vm_fault kBase true true asRO .WRITE 4096).map
            (fun o => o.2.2.pagetable 512) = some 1
      ∧ (vm_fault kBase true true asRO .WRITE 4096).map
            (fun o => (o.2.1.heapLive 1).map (fun l2 => l2 1))
          = some (some 4608) := by
  refine ⟨rfl, rfl, rfl, rfl⟩

/-- Claim C1 (corrected): a WRITE fault at an unmapped address of a
writable=false region succeeds: it returns 0, allocates a physical
frame, and installs a read-only mapping (dirty bit clear) — both when
the first-level slot already exists (part 1) and when this call
allocates it (part 2).  The protection-violation path is the READONLY
fault type, which always returns EFAULT — the same error code as a
plain translation fault — allocating nothing and changing neither the
kernel state nor the page table (part 3). -/
theorem claim_C1 :
    (∀ (k : KernelState) (as : Addrspace) (fa ptr : Nat) (l2 : L2)
        (reg : Region),
      as.pagetable (vmPt1Index fa) = ptr → ptr ≠ 0 →
      k.heapLive ptr = some l2 → l2 (vmPt2Index fa) = 0 →
      findRegion as.region_list (fa % U32) = some reg →
      reg.writeable = false →
      k.framesAvail ≠ 0 → k.nextFrame * PAGE_SIZE < MIPS_KSEG0 →
      vm_fault k true true as .WRITE fa
        = some (.ok (),
            { k with
                framesAvail := k.framesAvail - 1,
                nextFrame := k.nextFrame + 1,
                frameLive := updFn k.frameLive (k.nextFrame * PAGE_SIZE) true,
                mem := updFn k.mem (k.nextFrame * PAGE_SIZE) 0,
                heapLive := updFn k.heapLive ptr
                  (some (updFn l2 (vmPt2Index fa)
                    (k.nextFrame * PAGE_SIZE + TLBLO_VALID))),
                tlbWrites :=
                  (andPageFrame (fa % U32),
                   k.nextFrame * PAGE_SIZE + TLBLO_VALID)
                    :: k.tlbWrites },
            as))
    ∧ (∀ (k : KernelState) (as : Addrspace) (fa : Nat) (reg : Region),
      as.pagetable (vmPt1Index fa) = 0 →
      k.heapAvail ≠ 0 →
      findRegion as.region_list (fa % U32) = some reg →
      reg.writeable = false →
      k.framesAvail ≠ 0 → k.nextFrame * PAGE_SIZE < MIPS_KSEG0 →
      ∃ k' : KernelState,
        vm_fault k true true as .WRITE fa
          = some (.ok (), k',
              { as with pagetable := updFn as.pagetable (vmPt1Index fa)
                                       (k.nextPtr + 1) })
          ∧ k'.nextFrame = k.nextFrame + 1
          ∧ k'.framesAvail = k.framesAvail - 1
          ∧ ∃ nl2 : L2, k'.heapLive (k.nextPtr + 1) = some nl2
              ∧ nl2 (vmPt2Index fa)
                  = k.nextFrame * PAGE_SIZE + TLBLO_VALID)
    ∧ (∀ (k : KernelState) (hAS : Bool) (as : Addrspace) (fa : Nat),
      vm_fault k true hAS as .READONLY fa
        = some (.error .EFAULT, k, as)) := by
  refine ⟨?_, ?_, ?_⟩
  · intro k as fa ptr l2 reg hslot hptr hlive hempty hfind hro hframe hbound
    rw [vm_fault_dispatch_present k as _ fa (Or.inr rfl)
      (by simpa [hslot] using hptr)]
    rw [vm_fault_body_install k as false fa ptr l2 reg hslot hlive hempty
      hfind hframe hbound]
    simp [hro]
  · intro k as fa reg hslot hheap hfind hro hframe hbound
    rw [vm_fault_dispatch_absent k as _ fa (Or.inr rfl) hslot hheap]
    have hbody := vm_fault_body_install
      { k with heapAvail := k.heapAvail - 1,
               nextPtr := k.nextPtr + 1,
               heapLive := updFn k.heapLive (k.nextPtr + 1)
                             (some fun _ => 0) }
      { as with pagetable := updFn as.pagetable (vmPt1Index fa)
                               (k.nextPtr + 1) }
      true fa (k.nextPtr + 1) (fun _ => 0) reg
      (by simp [updFn_self]) (by simp [updFn_self]) rfl hfind hframe hbound
    rw [hbody]
    refine ⟨_, rfl, rfl, rfl,
      updFn (fun _ => 0) (vmPt2Index fa)
        (k.nextFrame * PAGE_SIZE + TLBLO_VALID), ?_, ?_⟩
    · simp [updFn_self, hro]
    · simp [updFn_self]
  · intro k hAS as fa
    exact vm_fault_readonly k hAS as fa

/-- A kernel state whose heap holds an all-sentinel second-level array at
pointer 1 (page 0x1000's slot exists but is unmapped). -/
def kC1w : KernelState :=
  { heapAvail := 100, framesAvail := 100, nextPtr := 1, nextFrame := 1,
    heapLive := updFn (fun _ => none) 1 (some fun _ => 0),
    frameLive := fun _ => false, mem := fun _ => 0,
    regionRecords := 1, tlbWrites := [] }

/-- asRO with its first-level slot 512 already populated by pointer 1. -/
def asC1w : Addrspace :=
  { region_list := [regRO], pagetable := updFn (fun _ => 0) 512 1,
    ptFrame := 0 }

/-- Witness for claim_C1 (part 1) at page 0x1000 of the read-only region
of asC1w: the WRITE fault succeeds and installs the read-only entry. -/
theorem claim_C1_witness :
    (asC1w.pagetable (vmPt1Index 4096) = 1 ∧ (1 : Nat) ≠ 0
        ∧ kC1w.heapLive 1 = some (fun _ => 0)
        ∧ (fun _ => (0 : Nat)) (vmPt2Index 4096) = 0
        ∧ findRegion asC1w.region_list (4096 % U32) = some regRO
        ∧ regRO.writeable = false
        ∧ kC1w.framesAvail ≠ 0
        ∧ kC1w.nextFrame * PAGE_SIZE < MIPS_KSEG0)
      ∧ vm_fault kC1w true true asC1w .WRITE 4096
          = some (.ok (),
              { kC1w with
                  framesAvail := kC1w.framesAvail - 1,
                  nextFrame := kC1w.nextFrame + 1,
                  frameLive := updFn kC1w.frameLive
                    (kC1w.nextFrame * PAGE_SIZE) true,
                  mem := updFn kC1w.mem (kC1w.nextFrame * PAGE_SIZE) 0,
                  heapLive := updFn kC1w.heapLive 1
                    (some (updFn (fun _ => 0) (vmPt2Index 4096)
                      (kC1w.nextFrame * PAGE_SIZE + TLBLO_VALID))),
                  tlbWrites :=
                    (andPageFrame (4096 % U32),
                     kC1w.nextFrame * PAGE_SIZE + TLBLO_VALID)
                      :: kC1w.tlbWrites },
              asC1w) :=
  ⟨⟨rfl, by decide, rfl, rfl, rfl, rfl, by decide, by decide⟩,
   claim_C1.1 kC1w asC1w 4096 1 (fun _ => 0) regRO rfl (by decide) rfl rfl
     rfl rfl (by decide) (by decide)⟩

/-
C7.  The load-time permission window.  prepare_load does let a WRITE
fault on a normally-read-only region succeed with a writable mapping,
and complete_load does restore the original permission; but a
subsequent WRITE fault on that region never returns a protection error:
at a still-unmapped page it succeeds and installs a read-only mapping
(the protection error only arises later as a READONLY fault, which
returns EFAULT).
-/

/-- A two-page read-only region [0x1000, 0x3000). -/
def regC7 : Region :=
  { vaddr := 4096, memsize := 8192, readable := true, writeable := false,
    executable := false, old_writeable := false }

/-- An address space holding only regC7, with an empty page table. -/
def asC7 : Addrspace :=
  { region_list := [regC7], pagetable := fun _ => 0, ptFrame := 0 }

/-- The C7 scenario, step 1: prepare_load, then a WRITE fault at 0x1000. -/
def c7s1 : Option (Except Errno Unit × KernelState × Addrspace) :=
  vm_fault kBase true true (as_prepare_load asC7) .WRITE 4096

/-- The C7 scenario, steps 2-3: complete_load, then a WRITE fault at the
still-unmapped page 0x2000 of the same region. -/
def c7s2 : Option (Except Errno Unit × KernelState × Addrspace) :=
  match c7s1 with
  | some (_, k1, as1) =>
    let p := as_complete_load k1 as1
    vm_fault p.1 true true p.2 .WRITE 8192
  | none => none

/-- Counterexample for C7: in the concrete scenario, the write fault
inside the window succeeds (with a writable, DIRTY entry 0x1600), and
after complete_load the subsequent WRITE fault at page 0x2000 of the
same region ALSO succeeds — returning ok, not a protection violation —
installing a read-only entry (dirty bit clear). -/
theorem claim_C7_cex :
    c7s1.map (fun o => o.1) = some (.ok ())
      ∧ c7s1.map (fun o => (o.2.1.heapLive 1).map (fun l2 => andDirty (l2 1)))
          = some (some 1024)
      ∧ c7s2.map (fun o => o.1) = some (.ok ())
      ∧ c7s2.map (fun o => (o.2.1.heapLive 1).map (fun l2 => andDirty (l2 2)))
          = some (some 0) := by
  refine ⟨rfl, rfl, rfl, rfl⟩

/-- Claim C7 (corrected): (1) as_prepare_load forces every region
writable; (2) during the window a WRITE fault at an unmapped address
whose containing region is found installs a writable (DIRTY) mapping
and succeeds; (3) as_complete_load restores every region's original
writability; (4) after the window, a WRITE fault at a still-unmapped
address of the (again read-only) region does NOT return a protection
violation: it succeeds, installing a read-only (dirty-clear) mapping;
(5) the protection fault proper is the READONLY fault type, which
always returns EFAULT. -/
theorem claim_C7 :
    (∀ (as : Addrspace) (r : Region),
      r ∈ (as_prepare_load as).region_list → r.writeable = true)
    ∧ (∀ (k : KernelState) (as : Addrspace) (fa ptr : Nat) (l2 : L2)
        (reg : Region),
      as.pagetable (vmPt1Index fa) = ptr → ptr ≠ 0 →
      k.heapLive ptr = some l2 → l2 (vmPt2Index fa) = 0 →
      findRegion (as_prepare_load as).region_list (fa % U32) = some reg →
      k.framesAvail ≠ 0 → k.nextFrame * PAGE_SIZE < MIPS_KSEG0 →
      vm_fault k true true (as_prepare_load as) .WRITE fa
        = some (.ok (),
            { k with
                framesAvail := k.framesAvail - 1,
                nextFrame := k.nextFrame + 1,
                frameLive := updFn k.frameLive (k.nextFrame * PAGE_SIZE) true,
                mem := updFn k.mem (k.nextFrame * PAGE_SIZE) 0,
                heapLive := updFn k.heapLive ptr
                  (some (updFn l2 (vmPt2Index fa)
                    (k.nextFrame * PAGE_SIZE + TLBLO_DIRTY + TLBLO_VALID))),
                tlbWrites :=
                  (andPageFrame (fa % U32),
                   k.nextFrame * PAGE_SIZE + TLBLO_DIRTY + TLBLO_VALID)
                    :: k.tlbWrites },
            as_prepare_load as))
    ∧ (∀ (k : KernelState) (as : Addrspace),
      (as_complete_load k (as_prepare_load as)).2.region_list.map
          Region.writeable
        = as.region_list.map Region.writeable)
    ∧ (∀ (k : KernelState) (as : Addrspace) (fa ptr : Nat) (l2 : L2)
        (reg : Region),
      as.pagetable (vmPt1Index fa) = ptr → ptr ≠ 0 →
      k.heapLive ptr = some l2 → l2 (vmPt2Index fa) = 0 →
      findRegion as.region_list (fa % U32) = some reg →
      reg.writeable = false →
      k.framesAvail ≠ 0 → k.nextFrame * PAGE_SIZE < MIPS_KSEG0 →
      vm_fault k true true as .WRITE fa
        = some (.ok (),
            { k with
                framesAvail := k.framesAvail - 1,
                nextFrame := k.nextFrame + 1,
                frameLive := updFn k.frameLive (k.nextFrame * PAGE_SIZE) true,
                mem := updFn k.mem (k.nextFrame * PAGE_SIZE) 0,
                heapLive := updFn k.heapLive ptr
                  (some (updFn l2 (vmPt2Index fa)
                    (k.nextFrame * PAGE_SIZE + TLBLO_VALID))),
                tlbWrites :=
                  (andPageFrame (fa % U32),
                   k.nextFrame * PAGE_SIZE + TLBLO_VALID)
                    :: k.tlbWrites },
            as))
    ∧ (∀ (k : KernelState) (hAS : Bool) (as : Addrspace) (fa : Nat),
      vm_fault k true hAS as .READONLY fa
        = some (.error .EFAULT, k, as)) := by
  have hforce : ∀ (as : Addrspace) (r : Region),
      r ∈ (as_prepare_load as).region_list → r.writeable = true := by
    intro as r hr
    simp only [as_prepare_load, List.mem_map] at hr
    obtain ⟨r0, _, rfl⟩ := hr
    rfl
  refine ⟨hforce, ?_, ?_, ?_, ?_⟩
  · intro k as fa ptr l2 reg hslot hptr hlive hempty hfind hframe hbound
    have hw : reg.writeable = true :=
      hforce as reg (List.mem_of_find?_eq_some hfind)
    rw [vm_fault_dispatch_present k (as_prepare_load as) _ fa (Or.inr rfl)
      (by simpa [as_prepare_load, hslot] using hptr)]
    rw [vm_fault_body_install k (as_prepare_load as) false fa ptr l2 reg
      hslot hlive hempty hfind hframe hbound]
    simp [hw]
  · intro k as
    simp [as_prepare_load, as_complete_load, List.map_map]
  · intro k as fa ptr l2 reg hslot hptr hlive hempty hfind hro hframe hbound
    rw [vm_fault_dispatch_present k as _ fa (Or.inr rfl)
      (by simpa [hslot] using hptr)]
    rw [vm_fault_body_install k as false fa ptr l2 reg hslot hlive hempty
      hfind hframe hbound]
    simp [hro]
  · intro k hAS as fa
    exact vm_fault_readonly k hAS as fa

/-- Witness for claim_C7 (part 2) on asC1w prepared for loading: the
WRITE fault at 0x1000 during the window installs a writable (DIRTY)
mapping and succeeds. -/
theorem claim_C7_witness :
    (asC1w.pagetable (vmPt1Index 4096) = 1 ∧ (1 : Nat) ≠ 0
        ∧ kC1w.heapLive 1 = some (fun _ => 0)
        ∧ (fun _ => (0 : Nat)) (vmPt2Index 4096) = 0
        ∧ findRegion (as_prepare_load asC1w).region_list (4096 % U32)
            = some { regRO with old_writeable := false, writeable := true }
        ∧ kC1w.framesAvail ≠ 0
        ∧ kC1w.nextFrame * PAGE_SIZE < MIPS_KSEG0)
      ∧ vm_fault kC1w true true (as_prepare_load asC1w) .WRITE 4096
          = some (.ok (),
              { kC1w with
                  framesAvail := kC1w.framesAvail - 1,
                  nextFrame := kC1w.nextFrame + 1,
                  frameLive := updFn kC1w.frameLive
                    (kC1w.nextFrame * PAGE_SIZE) true,
                  mem := updFn kC1w.mem (kC1w.nextFrame * PAGE_SIZE) 0,
                  heapLive := updFn kC1w.heapLive 1
                    (some (updFn (fun _ => 0) (vmPt2Index 4096)
                      (kC1w.nextFrame * PAGE_SIZE + TLBLO_DIRTY
                        + TLBLO_VALID))),
                  tlbWrites :=
                    (andPageFrame (4096 % U32),
                     kC1w.nextFrame * PAGE_SIZE + TLBLO_DIRTY + TLBLO_VALID)
                      :: kC1w.tlbWrites },
              as_prepare_load asC1w) :=
  ⟨⟨rfl, by decide, rfl, rfl, rfl, by decide, by decide⟩,
   claim_C7.2.1 kC1w asC1w 4096 1 (fun _ => 0)
     { regRO with old_writeable := false, writeable := true }
     rfl (by decide) rfl rfl rfl (by decide) (by decide)⟩

/-
C3.  Rollback of a first-level slot allocated by a failing fault.  The
source kfrees the freshly allocated second-level array but never clears
as->pagetable[pt1_bits], so the slot is left holding a dangling pointer
rather than being restored to the absent (NULL) state; the next fault
on the same range dereferences freed memory.
-/

/-- An address space with no regions and an empty page table. -/
def asNoReg : Addrspace :=
  { region_list := [], pagetable := fun _ => 0, ptFrame := 0 }

/-- Claim C3, code-bug demonstration: a READ fault at 0x1000 in asNoReg
(no containing region) allocates first-level slot 512 during the call
and fails with EFAULT as claimed, but afterwards the slot still holds
pointer 1 (not the absent state 0) while the heap cell for pointer 1 is
freed — the slot dangles and the page table does not equal its
pre-call state; a second fault on the same page then dereferences the
freed array (undefined behaviour, modelled as `none`). -/
theorem claim_C3 :
    (vm_fault kBase true true asNoReg .READ 4096).map (fun o => o.1)
        = some (.error .EFAULT)
      ∧ (vm_fault kBase true true asNoReg .READ 4096).map
            (fun o => o.2.2.pagetable 512) = some 1
      ∧ asNoReg.pagetable 512 = 0
      ∧ (vm_fault kBase true true asNoReg .READ 4096).map
            (fun o => (o.2.1.heapLive 1).isSome) = some false
      ∧ (match vm_fault kBase true true asNoReg .READ 4096 with
         | some (_, k', as') => vm_fault k' true true as' .READ 4096
         | none => some (.ok (), kBase, asNoReg))
          = none := by
  refine ⟨rfl, rfl, rfl, rfl, rfl⟩

/-
C4.  as_destroy of the source frees every resident frame, the
first-level array, the region records and the lock, but it never kfrees
the second-level arrays as->pagetable[i]: they all leak.
-/

/-- A second-level array with one resident entry (frame 0x1000, DIRTY,
VALID) at index 1. -/
def l2C4 : L2 := updFn (fun _ => 0) 1 5632

/-- A kernel state in which pointer 1 holds l2C4, frame 0x1000 backs the
resident page and frame 0x2000 backs the first-level array. -/
def kC4 : KernelState :=
  { heapAvail := 100, framesAvail := 100, nextPtr := 1, nextFrame := 3,
    heapLive := updFn (fun _ => none) 1 (some l2C4),
    frameLive := updFn (updFn (fun _ => false) 4096 true) 8192 true,
    mem := fun _ => 0, regionRecords := 1, tlbWrites := [] }

/-- The address space owning l2C4 through first-level slot 512, with one
region record and its first-level array in frame 0x2000. -/
def asC4 : Addrspace :=
  { region_list := [regRO], pagetable := updFn (fun _ => 0) 512 1,
    ptFrame := 8192 }

/-- Claim C4, code-bug demonstration: as_destroy on asC4 frees the
resident frame 0x1000, the first-level array's frame 0x2000, and the
region record — but the second-level array at heap pointer 1 is still
allocated afterwards: the source never kfrees as->pagetable[i], so
every second-level array leaks and memory attributable to the address
space remains allocated. -/
theorem claim_C4 :
    (as_destroy kC4 asC4).map (fun k => k.frameLive 4096) = some false
      ∧ (as_destroy kC4 asC4).map (fun k => k.frameLive 8192) = some false
      ∧ (as_destroy kC4 asC4).map (fun k => k.regionRecords) = some 0
      ∧ (as_destroy kC4 asC4).map (fun k => (k.heapLive 1).isSome)
          = some true := by
  refine ⟨rfl, rfl, rfl, rfl⟩

/-
C2.  as_copy discards vm_copy_pt's return value (the
`vm_copy_pt(old->pagetable, newas->pagetable);;` statement): when a
frame allocation fails during the eager clone, as_copy neither destroys
the destination nor surfaces ENOMEM — it stores the half-built
destination in *ret and returns 0.
-/

/-- A second-level source array with one resident entry (frame 0x1000,
DIRTY, VALID) at index 1. -/
def l2src : L2 := updFn (fun _ => 0) 1 5632

/-- A kernel state with a single frame left in the provider: enough for
as_create's first-level array, so the clone's frame allocation fails.
Pointer 1 holds l2src; frame 0x1000 (contents 7) backs the source page
and frame 0x2000 the source's first-level array. -/
def kC2 : KernelState :=
  { heapAvail := 10, framesAvail := 1, nextPtr := 1, nextFrame := 3,
    heapLive := updFn (fun _ => none) 1 (some l2src),
    frameLive := updFn (updFn (fun _ => false) 4096 true) 8192 true,
    mem := updFn (fun _ => 0) 4096 7, regionRecords := 1, tlbWrites := [] }

/-- The source address space for the C2/C5 scenarios: one read-only
region and one resident page, mapped through first-level slot 512 and
pointer 1. -/
def oldC2 : Addrspace :=
  { region_list := [regRO], pagetable := updFn (fun _ => 0) 512 1,
    ptFrame := 8192 }

/-- The kernel state as_copy reaches just before its vm_copy_pt call on
(kC2, oldC2): as_create consumed one heap unit and the last frame
(0x3000) for the destination's first-level array, and the region copy
consumed another heap unit. -/
def kMidC2 : KernelState :=
  { heapAvail := 8, framesAvail := 0, nextPtr := 1, nextFrame := 4,
    heapLive := updFn (fun _ => none) 1 (some l2src),
    frameLive := updFn (updFn (updFn (fun _ => false) 4096 true) 8192 true)
                   12288 true,
    mem := updFn (fun _ => 0) 4096 7, regionRecords := 2, tlbWrites := [] }

/-- Claim C2, code-bug demonstration: from kC2 the eager clone's frame
allocation fails — vm_copy_pt run from the intermediate state kMidC2
indeed returns ENOMEM — yet as_copy returns success (Except.ok) with a
half-built destination wired in: the destination's second-level array
(heap pointer 2) exists but its entry for the source's resident page is
still the sentinel 0.  The out-of-memory error is never surfaced and
the partially built destination is not destroyed. -/
theorem claim_C2 :
    (vm_copy_pt kMidC2 oldC2.pagetable (fun _ => 0)).map (fun o => o.1)
        = some (some .ENOMEM)
      ∧ (as_copy kC2 oldC2).map (fun o => o.1.isOk) = some true
      ∧ (as_copy kC2 oldC2).map (fun o =>
            match o.1 with
            | .ok nas => (o.2.heapLive (nas.pagetable 512)).map
                (fun l2 => l2 1)
            | .error _ => none) = some (some 0)
      ∧ (kC2.heapLive (oldC2.pagetable 512)).map (fun l2 => l2 1)
          = some 5632 := by
  refine ⟨rfl, rfl, rfl, rfl⟩

/-
C5.  Correctness of the eager page-table clone when every allocation
succeeds.  The lemmas below characterize one copied entry, the inner
(second-level) copy loop, the outer (first-level) loop, and the
state-preservation of as_create and the region-copy loop, and are
assembled into claim_C5.
-/

theorem vm_copy_pt_entry_spec (k : KernelState) (oldE : Nat)
    (hframe : k.framesAvail ≠ 0)
    (hbound : k.nextFrame * PAGE_SIZE < MIPS_KSEG0)
    (hsrc : andPageFrame oldE < k.nextFrame * PAGE_SIZE) :
    vm_copy_pt_entry k oldE
      = .ok ({ k with
                 framesAvail := k.framesAvail - 1,
                 nextFrame := k.nextFrame + 1,
                 frameLive := updFn k.frameLive (k.nextFrame * PAGE_SIZE) true,
                 mem := updFn (updFn k.mem (k.nextFrame * PAGE_SIZE) 0)
                          (k.nextFrame * PAGE_SIZE)
                          (k.mem (andPageFrame oldE)) },
             k.nextFrame * PAGE_SIZE + andDirty oldE + TLBLO_VALID) := by
  have hkv : PADDR_TO_KVADDR (k.nextFrame * PAGE_SIZE) ≠ 0 := by
    unfold PADDR_TO_KVADDR MIPS_KSEG0 U32 at *
    omega
  have hpa : KVADDR_TO_PADDR (PADDR_TO_KVADDR (k.nextFrame * PAGE_SIZE))
      = k.nextFrame * PAGE_SIZE := by
    unfold PADDR_TO_KVADDR KVADDR_TO_PADDR MIPS_KSEG0 U32 at *
    omega
  have hapf : andPageFrame (k.nextFrame * PAGE_SIZE)
      = k.nextFrame * PAGE_SIZE := by
    unfold andPageFrame PAGE_SIZE U32 MIPS_KSEG0 at *
    omega
  have hsrcpa : KVADDR_TO_PADDR (PADDR_TO_KVADDR (andPageFrame oldE))
      = andPageFrame oldE := by
    unfold andPageFrame PADDR_TO_KVADDR KVADDR_TO_PADDR U32 MIPS_KSEG0 at *
    omega
  have hne : andPageFrame oldE ≠ k.nextFrame * PAGE_SIZE := Nat.ne_of_lt hsrc
  simp [vm_copy_pt_entry, alloc_kpages, hframe, hkv, hpa, hapf, hsrcpa,
    updFn_ne _ _ _ _ hne]

theorem vm_copy_l2_spec (oldL2 : L2) (B : Nat) :
    ∀ (js : List Nat) (k : KernelState) (newL2 : L2) (err : Option Errno)
      (k' : KernelState) (nl : L2),
      vm_copy_l2 k oldL2 newL2 js = (err, k', nl) →
      js.Nodup → B ≤ k.nextFrame * PAGE_SIZE →
      (k.nextFrame + k.framesAvail) * PAGE_SIZE ≤ MIPS_KSEG0 →
      (∀ j, oldL2 j ≠ 0 → andPageFrame (oldL2 j) < B) →
      k'.heapLive = k.heapLive ∧ k'.nextPtr = k.nextPtr
      ∧ k'.heapAvail = k.heapAvail
      ∧ k.nextFrame ≤ k'.nextFrame
      ∧ k'.nextFrame + k'.framesAvail = k.nextFrame + k.framesAvail
      ∧ (∀ pa, pa < k.nextFrame * PAGE_SIZE → k'.mem pa = k.mem pa)
      ∧ (∀ j, j ∉ js → nl j = newL2 j)
      ∧ (err = none → ∀ j ∈ js,
          (oldL2 j = 0 → nl j = 0)
          ∧ (oldL2 j ≠ 0 → ∃ pa,
              nl j = pa + andDirty (oldL2 j) + TLBLO_VALID
              ∧ pa % PAGE_SIZE = 0 ∧ B ≤ pa
              ∧ pa < k'.nextFrame * PAGE_SIZE
              ∧ k'.mem pa = k.mem (andPageFrame (oldL2 j)))) := by
  intro js
  induction js with
  | nil =>
    intro k newL2 err k' nl h _ _ _ _
    simp only [vm_copy_l2, Prod.mk.injEq] at h
    obtain ⟨h1, h2, h3⟩ := h
    subst h1
    subst h2
    subst h3
    refine ⟨rfl, rfl, rfl, Nat.le_refl _, rfl, fun pa _ => rfl,
      fun j _ => rfl, fun _ j hj => absurd hj (List.not_mem_nil j)⟩
  | cons j rest ih =>
    intro k newL2 err k' nl h hnd hB hsum hsrc
    have hndr := (List.nodup_cons.mp hnd).2
    have hjr : j ∉ rest := (List.nodup_cons.mp hnd).1
    by_cases h0 : oldL2 j = 0
    · simp only [vm_copy_l2, h0, ne_eq, not_true_eq_false, if_false,
        ite_false] at h
      have hrec := ih k (updFn newL2 j 0) err k' nl h hndr hB hsum hsrc
      obtain ⟨e1, e2, e3, e4, e5, e6, e7, e8⟩ := hrec
      refine ⟨e1, e2, e3, e4, e5, e6, ?_, ?_⟩
      · intro j0 hj0
        have hj0r : j0 ∉ rest := fun hc => hj0 (List.mem_cons_of_mem _ hc)
        have hj0j : j0 ≠ j := fun hc => hj0 (hc ▸ List.mem_cons_self _ _)
        rw [e7 j0 hj0r, updFn_ne _ _ _ _ hj0j]
      · intro he j0 hj0
        rcases List.mem_cons.mp hj0 with rfl | hj0r
        · refine ⟨fun _ => ?_, fun hc => absurd h0 hc⟩
          rw [e7 j0 hjr, updFn_self]
        · exact e8 he j0 hj0r
    · by_cases hfa : k.framesAvail = 0
      · have hentry : vm_copy_pt_entry k (oldL2 j) = .error .ENOMEM := by
          simp [vm_copy_pt_entry, alloc_kpages, hfa]
        simp only [vm_copy_l2, h0, ne_eq, not_false_eq_true, if_true,
          ite_true, hentry, Prod.mk.injEq] at h
        obtain ⟨h1, h2, h3⟩ := h
        subst h1
        subst h2
        subst h3
        refine ⟨rfl, rfl, rfl, Nat.le_refl _, rfl, fun pa _ => rfl,
          fun j0 _ => rfl, fun he => by cases he⟩
      · have hbd : k.nextFrame * PAGE_SIZE < MIPS_KSEG0 := by
          unfold PAGE_SIZE MIPS_KSEG0 at *
          omega
        have hentry := vm_copy_pt_entry_spec k (oldL2 j) hfa hbd
          (Nat.lt_of_lt_of_le (hsrc j h0) hB)
        simp only [vm_copy_l2, h0, ne_eq, not_false_eq_true, if_true,
          ite_true, hentry] at h
        have hrec := ih _ _ err k' nl h hndr
          (by simp only [PAGE_SIZE] at *; omega)
          (by simp only [PAGE_SIZE, MIPS_KSEG0] at *; omega)
          hsrc
        obtain ⟨e1, e2, e3, e4, e5, e6, e7, e8⟩ := hrec
        have hmono : k.nextFrame + 1 ≤ k'.nextFrame := e4
        refine ⟨e1, e2, e3, by omega, by simp only [] at e5; omega, ?_,
          ?_, ?_⟩
        · intro pa hpa
          rw [e6 pa (by simp only [PAGE_SIZE] at *; omega)]
          have hnepa : pa ≠ k.nextFrame * PAGE_SIZE := by
            simp only [PAGE_SIZE] at *
            omega
          dsimp only
          rw [updFn_ne _ _ _ _ hnepa, updFn_ne _ _ _ _ hnepa]
        · intro j0 hj0
          have hj0r : j0 ∉ rest := fun hc => hj0 (List.mem_cons_of_mem _ hc)
          have hj0j : j0 ≠ j := fun hc => hj0 (hc ▸ List.mem_cons_self _ _)
          rw [e7 j0 hj0r, updFn_ne _ _ _ _ hj0j]
        · intro he j0 hj0
          rcases List.mem_cons.mp hj0 with rfl | hj0r
          · refine ⟨fun hc => absurd hc h0, fun _ => ?_⟩
            refine ⟨k.nextFrame * PAGE_SIZE, ?_, ?_, hB, ?_, ?_⟩
            · rw [e7 j0 hjr, updFn_self]
            · simp [PAGE_SIZE, Nat.mul_mod_left]
            · simp only [PAGE_SIZE] at *
              omega
            · rw [e6 _ (by simp only [PAGE_SIZE] at *; omega)]
              simp [updFn_self]
          · have := e8 he j0 hj0r
            refine ⟨this.1, fun hne0 => ?_⟩
            obtain ⟨pa, p1, p2, p3, p4, p5⟩ := this.2 hne0
            refine ⟨pa, p1, p2, p3, p4, ?_⟩
            rw [p5]
            have hne1 : andPageFrame (oldL2 j0) ≠ k.nextFrame * PAGE_SIZE := by
              have := hsrc j0 hne0
              simp only [PAGE_SIZE] at *
              omega
            dsimp only
            rw [updFn_ne _ _ _ _ hne1, updFn_ne _ _ _ _ hne1]

theorem vm_copy_pt_go_spec (old_pt : Nat → Nat) (B P : Nat) :
    ∀ (is : List Nat) (k : KernelState) (new_pt : Nat → Nat)
      (err : Option Errno) (k' : KernelState) (np : Nat → Nat),
      vm_copy_pt_go k old_pt new_pt is = some (err, k', np) →
      is.Nodup →
      B ≤ k.nextFrame * PAGE_SIZE →
      (k.nextFrame + k.framesAvail) * PAGE_SIZE ≤ MIPS_KSEG0 →
      P ≤ k.nextPtr →
      (∀ i ∈ is, old_pt i ≠ 0 → old_pt i ≤ P ∧
          ∃ ol2, k.heapLive (old_pt i) = some ol2
            ∧ ∀ j, ol2 j ≠ 0 → andPageFrame (ol2 j) < B) →
      (∀ p, p ≤ k.nextPtr → k'.heapLive p = k.heapLive p)
      ∧ k.nextPtr ≤ k'.nextPtr
      ∧ k.nextFrame ≤ k'.nextFrame
      ∧ k'.nextFrame + k'.framesAvail = k.nextFrame + k.framesAvail
      ∧ (∀ pa, pa < k.nextFrame * PAGE_SIZE → k'.mem pa = k.mem pa)
      ∧ (∀ i, i ∉ is → np i = new_pt i)
      ∧ (err = none → ∀ i ∈ is, old_pt i ≠ 0 →
          ∃ ptr nl2, np i = ptr ∧ ptr ≠ 0
            ∧ k'.heapLive ptr = some nl2
            ∧ ∀ ol2, k.heapLive (old_pt i) = some ol2 →
                ∀ j, j < PT_SIZE →
                  (ol2 j = 0 → nl2 j = 0)
                  ∧ (ol2 j ≠ 0 → ∃ pa,
                      nl2 j = pa + andDirty (ol2 j) + TLBLO_VALID
                      ∧ pa % PAGE_SIZE = 0 ∧ B ≤ pa
                      ∧ pa < k'.nextFrame * PAGE_SIZE
                      ∧ k'.mem pa = k.mem (andPageFrame (ol2 j)))) := by
  intro is
  induction is with
  | nil =>
    intro k new_pt err k' np h _ _ _ _ _
    simp only [vm_copy_pt_go, Option.some.injEq, Prod.mk.injEq] at h
    obtain ⟨h1, h2, h3⟩ := h
    subst h1
    subst h2
    subst h3
    refine ⟨fun p _ => rfl, Nat.le_refl _, Nat.le_refl _, rfl,
      fun pa _ => rfl, fun i _ => rfl,
      fun _ i hi => absurd hi (List.not_mem_nil i)⟩
  | cons i rest ih =>
    intro k new_pt err k' np h hnd hB hsum hP hsrcs
    have hndr := (List.nodup_cons.mp hnd).2
    have hir : i ∉ rest := (List.nodup_cons.mp hnd).1
    by_cases h0 : old_pt i = 0
    · simp only [vm_copy_pt_go, h0, if_true, ite_true, if_pos] at h
      have hrec := ih k new_pt err k' np h hndr hB hsum hP
        (fun i' hi' => hsrcs i' (List.mem_cons_of_mem _ hi'))
      obtain ⟨o1, o2, o3, o4, o5, o6, o7⟩ := hrec
      refine ⟨o1, o2, o3, o4, o5, ?_, ?_⟩
      · intro i0 hi0
        exact o6 i0 (fun hc => hi0 (List.mem_cons_of_mem _ hc))
      · intro he i0 hi0 hne0
        rcases List.mem_cons.mp hi0 with rfl | hi0r
        · exact absurd h0 hne0
        · exact o7 he i0 hi0r hne0
    · by_cases hha : k.heapAvail = 0
      · simp only [vm_copy_pt_go, h0, hha, if_false, if_true, ite_true,
          ite_false, reduceCtorEq] at h
      · obtain ⟨hle, ol2, hol2, hfr⟩ := hsrcs i (List.mem_cons_self _ _) h0
        have hnei : old_pt i ≠ k.nextPtr + 1 := by omega
        have hup : updFn k.heapLive (k.nextPtr + 1) (some fun _ => 0)
            (old_pt i) = some ol2 := by
          rw [updFn_ne _ _ _ _ hnei]
          exact hol2
        simp only [vm_copy_pt_go, h0, hha, if_false, ite_false, hup] at h
        rcases hl2 : vm_copy_l2
            { k with heapAvail := k.heapAvail - 1,
                     nextPtr := k.nextPtr + 1,
                     heapLive := updFn k.heapLive (k.nextPtr + 1)
                                   (some fun _ => 0) }
            ol2 (fun _ => 0) (List.range PT_SIZE) with ⟨err2, k2, nl2c⟩
        rw [hl2] at h
        have hinner := vm_copy_l2_spec ol2 B (List.range PT_SIZE) _ _
          err2 k2 nl2c hl2 (List.nodup_range PT_SIZE) hB hsum hfr
        obtain ⟨i1, i2, i3, i4, i5, i6, i7, i8⟩ := hinner
        rcases err2 with _ | e
        · -- inner loop succeeded; continue with the rest of the first level
          simp only [] at h
          have hrec := ih _ _ err k' np h hndr
            (by simp only [PAGE_SIZE] at *; omega)
            (by simp only [PAGE_SIZE, MIPS_KSEG0] at *; omega)
            (by simp only [] at i2 ⊢; omega)
            (by
              intro i' hi' hne'
              obtain ⟨hle', ol2', hol2', hfr'⟩ :=
                hsrcs i' (List.mem_cons_of_mem _ hi') hne'
              refine ⟨hle', ol2', ?_, hfr'⟩
              have hnei' : old_pt i' ≠ k.nextPtr + 1 := by omega
              dsimp only
              rw [updFn_ne _ _ _ _ (by simp only [] at i2 ⊢; omega), i1]
              dsimp only
              rw [updFn_ne _ _ _ _ hnei']
              exact hol2')
          obtain ⟨o1, o2, o3, o4, o5, o6, o7⟩ := hrec
          have hkL : ∀ p, p ≤ k.nextPtr → k'.heapLive p = k.heapLive p := by
            intro p hp
            rw [o1 p (by simp only [] at i2 ⊢; omega)]
            dsimp only
            rw [updFn_ne _ _ _ _ (by omega), i1]
            dsimp only
            rw [updFn_ne _ _ _ _ (by omega)]
          refine ⟨hkL, by simp only [] at i2 o2 ⊢; omega,
            by simp only [] at i4 o3 ⊢; omega,
            by simp only [] at i5 o4 ⊢; omega, ?_, ?_, ?_⟩
          · intro pa hpa
            rw [o5 pa (by simp only [PAGE_SIZE] at *; omega)]
            dsimp only
            rw [i6 pa (by simp only [PAGE_SIZE] at *; omega)]
          · intro i0 hi0
            have hi0r : i0 ∉ rest := fun hc => hi0 (List.mem_cons_of_mem _ hc)
            have hi0i : i0 ≠ i := fun hc => hi0 (hc ▸ List.mem_cons_self _ _)
            rw [o6 i0 hi0r, updFn_ne _ _ _ _ hi0i]
          · intro he i0 hi0 hne0
            rcases List.mem_cons.mp hi0 with rfl | hi0r
            · refine ⟨k.nextPtr + 1, nl2c, ?_, by omega, ?_, ?_⟩
              · rw [o6 i0 hir, updFn_self]
              · rw [o1 (k.nextPtr + 1) (by simp only [] at i2 ⊢; omega)]
                dsimp only
                rw [updFn_self]
              · intro ol2x holx j hj
                have holeq : ol2x = ol2 := by
                  rw [hol2] at holx
                  exact (Option.some.injEq _ _ ▸ holx).symm
                subst holeq
                have hprops := i8 rfl j (List.mem_range.mpr hj)
                refine ⟨hprops.1, fun hjne => ?_⟩
                obtain ⟨pa, p1, p2, p3, p4, p5⟩ := hprops.2 hjne
                refine ⟨pa, p1, p2, p3,
                  by simp only [PAGE_SIZE] at *; omega, ?_⟩
                rw [o5 pa (by simp only [PAGE_SIZE] at *; omega), p5]
            · obtain ⟨ptr', nl2', q1, q2, q3, q4⟩ := o7 he i0 hi0r hne0
              refine ⟨ptr', nl2', q1, q2, q3, ?_⟩
              intro ol2x holx j hj
              obtain ⟨hle', ol2'', hol2'', hfr''⟩ :=
                hsrcs i0 (List.mem_cons_of_mem _ hi0r) hne0
              have holeq : ol2x = ol2'' := by
                rw [hol2''] at holx
                exact (Option.some.injEq _ _ ▸ holx).symm
              subst holeq
              have hk3L : updFn k2.heapLive (k.nextPtr + 1) (some nl2c)
                  (old_pt i0) = some ol2x := by
                rw [updFn_ne _ _ _ _ (by omega), i1]
                dsimp only
                rw [updFn_ne _ _ _ _ (by omega)]
                exact hol2''
              have hprops := q4 ol2x hk3L j hj
              refine ⟨hprops.1, fun hjne => ?_⟩
              obtain ⟨pa, p1, p2, p3, p4, p5⟩ := hprops.2 hjne
              refine ⟨pa, p1, p2, p3, p4, ?_⟩
              rw [p5]
              dsimp only
              rw [i6 _ (by
                have := hfr'' j hjne
                simp only [PAGE_SIZE] at *
                omega)]
        · -- inner loop failed with ENOMEM: the loop stops here
          simp only [Option.some.injEq, Prod.mk.injEq] at h
          obtain ⟨h1, h2, h3⟩ := h
          subst h1
          subst h2
          subst h3
          have hkL : ∀ p, p ≤ k.nextPtr →
              updFn k2.heapLive (k.nextPtr + 1) (some nl2c) p
                = k.heapLive p := by
            intro p hp
            rw [updFn_ne _ _ _ _ (by omega), i1]
            dsimp only
            rw [updFn_ne _ _ _ _ (by omega)]
          refine ⟨hkL, by simp only [] at i2 ⊢; omega,
            by simp only [] at i4 ⊢; omega,
            by simp only [] at i5 ⊢; omega, ?_, ?_, ?_⟩
          · intro pa hpa
            dsimp only
            rw [i6 pa (by simp only [PAGE_SIZE] at *; omega)]
          · intro i0 hi0
            have hi0i : i0 ≠ i := fun hc => hi0 (hc ▸ List.mem_cons_self _ _)
            exact updFn_ne _ _ _ _ hi0i
          · intro he
            cases he

theorem as_define_region_state (k : KernelState) (as : Addrspace)
    (vaddr memsize : Nat) (r w x : Bool) (e : Except Errno Unit)
    (kd : KernelState) (ad : Addrspace)
    (h : as_define_region k as vaddr memsize r w x = (e, kd, ad)) :
    kd.heapLive = k.heapLive ∧ kd.nextPtr = k.nextPtr
    ∧ kd.nextFrame = k.nextFrame ∧ kd.framesAvail = k.framesAvail
    ∧ kd.mem = k.mem ∧ ad.pagetable = as.pagetable := by
  unfold as_define_region at h
  by_cases h1 : (normBase vaddr + normSize vaddr memsize) % U32 > MIPS_KSEG0
  · simp only [h1, if_true, ite_true, Prod.mk.injEq] at h
    obtain ⟨_, h2, h3⟩ := h
    subst h2
    subst h3
    exact ⟨rfl, rfl, rfl, rfl, rfl, rfl⟩
  · by_cases h2 : overlapsChk (normBase vaddr) (normSize vaddr memsize)
        as.region_list = true
    · simp only [h1, h2, if_false, if_true, ite_true, ite_false,
        Prod.mk.injEq] at h
      obtain ⟨_, h3, h4⟩ := h
      subst h3
      subst h4
      exact ⟨rfl, rfl, rfl, rfl, rfl, rfl⟩
    · by_cases h3 : k.heapAvail = 0
      · simp [h1, h2, h3, Prod.mk.injEq] at h
        obtain ⟨_, h4, h5⟩ := h
        subst h4
        subst h5
        exact ⟨rfl, rfl, rfl, rfl, rfl, rfl⟩
      · simp [h1, h2, h3, Prod.mk.injEq] at h
        obtain ⟨_, h4, h5⟩ := h
        subst h4
        subst h5
        exact ⟨rfl, rfl, rfl, rfl, rfl, rfl⟩

theorem as_copy_regions_nil (k : KernelState) (a : Addrspace) :
    as_copy_regions k a [] = (none, k, a) := rfl

set_option maxHeartbeats 1600000 in
theorem as_copy_regions_cons (k : KernelState) (a : Addrspace) (r : Region)
    (rest : List Region) :
    as_copy_regions k a (r :: rest)
      = match as_define_region k a r.vaddr r.memsize r.readable r.writeable
            r.executable with
        | (.error e, k1, as1) => (some e, k1, as1)
        | (.ok (), k1, as1) => as_copy_regions k1 as1 rest := rfl

theorem as_copy_regions_state (rs : List Region) :
    ∀ (k : KernelState) (a : Addrspace) (e : Option Errno)
      (k2 : KernelState) (a2 : Addrspace),
      as_copy_regions k a rs = (e, k2, a2) →
      k2.heapLive = k.heapLive ∧ k2.nextPtr = k.nextPtr
      ∧ k2.nextFrame = k.nextFrame ∧ k2.framesAvail = k.framesAvail
      ∧ k2.mem = k.mem ∧ a2.pagetable = a.pagetable := by
  induction rs with
  | nil =>
    intro k a e k2 a2 h
    rw [as_copy_regions_nil] at h
    simp only [Prod.mk.injEq] at h
    obtain ⟨h1, h2, h3⟩ := h
    subst h2
    subst h3
    exact ⟨rfl, rfl, rfl, rfl, rfl, rfl⟩
  | cons r rest ih =>
    intro k a e k2 a2 h
    rcases hdr : as_define_region k a r.vaddr r.memsize r.readable
        r.writeable r.executable with ⟨er, kd, ad⟩
    obtain ⟨s1, s2, s3, s4, s5, s6⟩ := as_define_region_state k a r.vaddr
      r.memsize r.readable r.writeable r.executable er kd ad hdr
    rw [as_copy_regions_cons, hdr] at h
    rcases er with e0 | u
    · simp only [Prod.mk.injEq] at h
      obtain ⟨h1, h2, h3⟩ := h
      subst h2
      subst h3
      exact ⟨s1, s2, s3, s4, s5, s6⟩
    · cases u
      simp only [] at h
      obtain ⟨t1, t2, t3, t4, t5, t6⟩ := ih kd ad e k2 a2 h
      exact ⟨t1.trans s1, t2.trans s2, t3.trans s3, t4.trans s4,
        t5.trans s5, t6.trans s6⟩

theorem as_create_inv (k k1 : KernelState) (nas : Addrspace)
    (h : as_create k = (k1, some nas)) :
    k1.heapLive = k.heapLive ∧ k1.nextPtr = k.nextPtr
    ∧ k1.nextFrame = k.nextFrame + 1
    ∧ k1.framesAvail = k.framesAvail - 1 ∧ k.framesAvail ≠ 0
    ∧ k1.mem = k.mem ∧ k1.heapAvail = k.heapAvail - 1
    ∧ nas.pagetable = fun _ => 0 := by
  unfold as_create alloc_kpages at h
  by_cases hh : k.heapAvail = 0
  · simp [hh] at h
  · simp only [hh, if_false, ite_false] at h
    by_cases hf : k.framesAvail = 0
    · simp [hf] at h
    · simp only [hf, if_false, ite_false] at h
      by_cases hkv : PADDR_TO_KVADDR (k.nextFrame * PAGE_SIZE) = 0
      · simp [hkv] at h
      · simp only [hkv, if_false, ite_false, Prod.mk.injEq,
          Option.some.injEq] at h
        obtain ⟨h1, h2⟩ := h
        subst h1
        subst h2
        exact ⟨rfl, rfl, rfl, rfl, hf, rfl, rfl, rfl⟩

/-- Claim C5 (corrected): if duplication's eager clone runs with no
allocation failure (the vm_copy_pt step returns 0), then as_copy returns
the destination built from it, and for every resident mapping (i, j) of
the source, the destination has a mapping at the same virtual page whose
dirty/writable flag is identical, whose page contents equal the source
page's contents (in the post-duplication memory), and whose physical
frame differs from the source's — indeed the destination frame is at or
above the pre-call allocation frontier (k.nextFrame * PAGE_SIZE) while
every source frame lies below it, so no frame is shared at all.  The
well-formedness hypotheses say the source's second-level pointers are
live, at most the current fresh-pointer counter, and its frames lie
below the allocation frontier, and that the frame provider's reachable
frames stay inside KSEG0-addressable memory. -/
theorem claim_C5 (k k1 k2 k3 : KernelState) (old nas0 as2 : Addrspace)
    (np : Nat → Nat)
    (hcreate : as_create k = (k1, some nas0))
    (hregs : as_copy_regions k1 nas0 old.region_list = (none, k2, as2))
    (hclone : vm_copy_pt k2 old.pagetable as2.pagetable
        = some (none, k3, np))
    (hsum : (k.nextFrame + k.framesAvail) * PAGE_SIZE ≤ MIPS_KSEG0)
    (hsrc : ∀ i, old.pagetable i ≠ 0 → old.pagetable i ≤ k.nextPtr ∧
        ∃ ol2, k.heapLive (old.pagetable i) = some ol2
          ∧ ∀ j, ol2 j ≠ 0 →
              andPageFrame (ol2 j) < k.nextFrame * PAGE_SIZE) :
    as_copy k old = some (.ok { as2 with pagetable := np }, k3)
    ∧ ∀ i j ol2, i < PT_SIZE → j < PT_SIZE →
        old.pagetable i ≠ 0 →
        k.heapLive (old.pagetable i) = some ol2 →
        ol2 j ≠ 0 →
        ∃ ptr nl2 pa, np i = ptr ∧ ptr ≠ 0
          ∧ k3.heapLive ptr = some nl2
          ∧ nl2 j ≠ 0
          ∧ andDirty (nl2 j) = andDirty (ol2 j)
          ∧ andPageFrame (nl2 j) = pa
          ∧ k3.mem pa = k3.mem (andPageFrame (ol2 j))
          ∧ k.nextFrame * PAGE_SIZE ≤ pa
          ∧ andPageFrame (ol2 j) < k.nextFrame * PAGE_SIZE
          ∧ pa ≠ andPageFrame (ol2 j) := by
  obtain ⟨c1, c2, c3, c4, c5, c6, c7, c8⟩ := as_create_inv k k1 nas0 hcreate
  obtain ⟨r1, r2, r3, r4, r5, r6⟩ :=
    as_copy_regions_state old.region_list k1 nas0 none k2 as2 hregs
  have hgo := vm_copy_pt_go_spec old.pagetable (k.nextFrame * PAGE_SIZE)
    k.nextPtr (List.range PT_SIZE) k2 as2.pagetable none k3 np hclone
    (List.nodup_range PT_SIZE)
    (by rw [r3, c3]; simp only [PAGE_SIZE]; omega)
    (by rw [r3, r4, c3, c4]; simp only [PAGE_SIZE, MIPS_KSEG0] at *; omega)
    (by rw [r2, c2])
    (by
      intro i _ hne
      obtain ⟨hle, ol2, hol2, hfr⟩ := hsrc i hne
      refine ⟨hle, ol2, ?_, hfr⟩
      rw [r1, c1]
      exact hol2)
  obtain ⟨g1, g2, g3, g4, g5, g6, g7⟩ := hgo
  constructor
  · unfold as_copy
    rw [hcreate]
    simp only []
    rw [hregs]
    simp only []
    rw [hclone]
  · intro i j ol2 hiPT hjPT hne hol2 hjne
    obtain ⟨ptr, nl2, q1, q2, q3, q4⟩ :=
      g7 rfl i (List.mem_range.mpr hiPT) hne
    have hol2k2 : k2.heapLive (old.pagetable i) = some ol2 := by
      rw [r1, c1]
      exact hol2
    have hprops := q4 ol2 hol2k2 j hjPT
    obtain ⟨pa, p1, p2, p3, p4, p5⟩ := hprops.2 hjne
    have hpaU : pa < U32 := by
      simp only [PAGE_SIZE, MIPS_KSEG0, U32] at *
      omega
    have hdec := entry_decompose pa (andDirty (ol2 j)) p2 hpaU
      (andDirty_cases (ol2 j))
    obtain ⟨d1, d2, d3⟩ := hdec
    obtain ⟨hle, ol2', hol2', hfr⟩ := hsrc i hne
    have holeq : ol2' = ol2 := by
      rw [hol2] at hol2'
      exact (Option.some.injEq _ _ ▸ hol2').symm
    have hsrclt : andPageFrame (ol2 j) < k.nextFrame * PAGE_SIZE :=
      (holeq ▸ hfr) j hjne
    refine ⟨ptr, nl2, pa, q1, q2, q3, ?_, ?_, ?_, ?_, ?_, hsrclt, ?_⟩
    · rw [p1]
      exact d3
    · rw [p1]
      exact d2
    · rw [p1]
      exact d1
    · have hmemsrc : k3.mem (andPageFrame (ol2 j))
          = k2.mem (andPageFrame (ol2 j)) := by
        refine g5 _ ?_
        rw [r3, c3]
        simp only [PAGE_SIZE] at *
        omega
      rw [p5, hmemsrc, r5, c6]
    · have hB : k.nextFrame * PAGE_SIZE ≤ pa := by
        exact p3
      exact hB
    · simp only [PAGE_SIZE] at *
      omega

/-- A second-level source array with one resident entry at index 2, for
the C5 counterexample. -/
def l2C5x : L2 := updFn (fun _ => 0) 2 5632

def kC5x : KernelState :=
  { heapAvail := 10, framesAvail := 1, nextPtr := 1, nextFrame := 3,
    heapLive := updFn (fun _ => none) 1 (some l2C5x),
    frameLive := updFn (updFn (fun _ => false) 4096 true) 8192 true,
    mem := updFn (fun _ => 0) 4096 9, regionRecords := 1, tlbWrites := [] }

def oldC5x : Addrspace :=
  { region_list := [regC7], pagetable := updFn (fun _ => 0) 512 1,
    ptFrame := 8192 }

/-- Counterexample for C5 as stated: duplication from kC5x SUCCEEDS
(as_copy returns ok — the clone's allocation failure is discarded, see
claim_C2), the source has a resident mapping at page (512, 2), yet the
destination has NO mapping there (sentinel 0): "for every source address
space on which duplication succeeds, every resident mapping is cloned"
is false at this input. -/
theorem claim_C5_cex :
    (as_copy kC5x oldC5x).map (fun o => o.1.isOk) = some true
      ∧ (kC5x.heapLive (oldC5x.pagetable 512)).map (fun l2 => l2 2)
          = some 5632
      ∧ (as_copy kC5x oldC5x).map (fun o =>
            match o.1 with
            | .ok nas => (o.2.heapLive (nas.pagetable 512)).map
                (fun l2 => l2 2)
            | .error _ => none) = some (some 0) := by
  refine ⟨rfl, rfl, rfl⟩

/-- A second-level source array with one resident dirty entry at index 1,
for the C5 witness. -/
def l2C5w : L2 := updFn (fun _ => 0) 1 5632

def kC5w : KernelState :=
  { heapAvail := 10, framesAvail := 10, nextPtr := 1, nextFrame := 3,
    heapLive := updFn (fun _ => none) 1 (some l2C5w),
    frameLive := updFn (updFn (fun _ => false) 4096 true) 8192 true,
    mem := updFn (fun _ => 0) 4096 7, regionRecords := 1, tlbWrites := [] }

def oldC5w : Addrspace :=
  { region_list := [regRO], pagetable := updFn (fun _ => 0) 512 1,
    ptFrame := 8192 }

def c5k1 : KernelState := (as_create kC5w).1

def c5nas0 : Addrspace :=
  match (as_create kC5w).2 with
  | some a => a
  | none => asNoReg

def c5k2 : KernelState :=
  (as_copy_regions c5k1 c5nas0 oldC5w.region_list).2.1

def c5as2 : Addrspace :=
  (as_copy_regions c5k1 c5nas0 oldC5w.region_list).2.2

def c5k3 : KernelState :=
  match vm_copy_pt c5k2 oldC5w.pagetable c5as2.pagetable with
  | some t => t.2.1
  | none => kC5w

def c5np : Nat → Nat :=
  match vm_copy_pt c5k2 oldC5w.pagetable c5as2.pagetable with
  | some t => t.2.2
  | none => fun _ => 0

/-- Witness for claim_C5: a full successful duplication of oldC5w (one
resident dirty page with contents 7) from a provider with ample frames,
with the intermediate states computed by evaluation. -/
theorem claim_C5_witness :
    (as_create kC5w = (c5k1, some c5nas0)
      ∧ as_copy_regions c5k1 c5nas0 oldC5w.region_list = (none, c5k2, c5as2)
      ∧ vm_copy_pt c5k2 oldC5w.pagetable c5as2.pagetable
          = some (none, c5k3, c5np)
      ∧ (kC5w.nextFrame + kC5w.framesAvail) * PAGE_SIZE ≤ MIPS_KSEG0
      ∧ (∀ i, oldC5w.pagetable i ≠ 0 → oldC5w.pagetable i ≤ kC5w.nextPtr ∧
          ∃ ol2, kC5w.heapLive (oldC5w.pagetable i) = some ol2
            ∧ ∀ j, ol2 j ≠ 0 →
                andPageFrame (ol2 j) < kC5w.nextFrame * PAGE_SIZE))
    ∧ (as_copy kC5w oldC5w = some (.ok { c5as2 with pagetable := c5np }, c5k3)
      ∧ ∀ i j ol2, i < PT_SIZE → j < PT_SIZE →
          oldC5w.pagetable i ≠ 0 →
          kC5w.heapLive (oldC5w.pagetable i) = some ol2 →
          ol2 j ≠ 0 →
          ∃ ptr nl2 pa, c5np i = ptr ∧ ptr ≠ 0
            ∧ c5k3.heapLive ptr = some nl2
            ∧ nl2 j ≠ 0
            ∧ andDirty (nl2 j) = andDirty (ol2 j)
            ∧ andPageFrame (nl2 j) = pa
            ∧ c5k3.mem pa = c5k3.mem (andPageFrame (ol2 j))
            ∧ kC5w.nextFrame * PAGE_SIZE ≤ pa
            ∧ andPageFrame (ol2 j) < kC5w.nextFrame * PAGE_SIZE
            ∧ pa ≠ andPageFrame (ol2 j)) := by
  have hsrc : ∀ i, oldC5w.pagetable i ≠ 0 → oldC5w.pagetable i ≤ kC5w.nextPtr
      ∧ ∃ ol2, kC5w.heapLive (oldC5w.pagetable i) = some ol2
        ∧ ∀ j, ol2 j ≠ 0 →
            andPageFrame (ol2 j) < kC5w.nextFrame * PAGE_SIZE := by
    intro i hi
    by_cases h : i = 512
    · subst h
      refine ⟨by decide, l2C5w, rfl, ?_⟩
      intro j hj
      by_cases hj2 : j = 1
      · subst hj2
        decide
      · exfalso
        apply hj
        simp [l2C5w, updFn, hj2]
    · exfalso
      apply hi
      simp [oldC5w, updFn, h]
  exact ⟨⟨rfl, rfl, rfl, by decide, hsrc⟩,
    claim_C5 kC5w c5k1 c5k2 c5k3 oldC5w c5nas0 c5as2 c5np rfl rfl rfl
      (by decide) hsrc⟩
